import Mathlib

/-!
Verification development for the `zsl-pytorch` AwA notebook
(`examples/awa.ipynb`). The notebook is a linear script: it constructs
AwA feature datasets and data loaders, builds a linear semantic unit and
an identity visual module, wraps them in a `ZeroShot` model, builds an
`AdamW` optimizer over the gradient-requiring parameters, and runs an
epoch loop calling `zsl.engine.train_epoch` and `zsl.engine.evaluate`.

The `zsl` package (`zsl.data`, `zsl.models`, `zsl.engine`, `zsl.utils`)
is referenced by the notebook but its code is not part of the visible
sources; definitions for those parts are modelled from the spec and are
marked as such in their doc comments. Everything about the script itself
(ordering of steps, the epoch loop, the parameter filter, absence of
exception handlers) is embedded directly from the notebook cells.
-/

namespace ZslPytorch

/-! ## Tensors as batches of integer vectors

The notebook only ever manipulates rank-1 and rank-2 float tensors; we
model a (possibly batched) tensor as a list of rows of integers. Only
shapes and value-identity are at stake in the claims, so integer entries
are a faithful carrier.
-/

/-- A batched tensor: a list of rows, each row a vector of entries. -/
structure Batch where
  rows : List (List Int)
deriving DecidableEq, Repr

/-- The common width (final dimension) of a batch, read off its first row. -/
def Batch.width (b : Batch) : Option Nat :=
  b.rows.head?.map List.length

/-- Dot product of two integer vectors. -/
def dot (xs ys : List Int) : Int :=
  (List.zipWith (· * ·) xs ys).sum

/-- A fully-connected (linear) layer: `out_features` rows of weights plus a
bias vector, as in `torch.nn.Linear(in_features, out_features)`. -/
structure Linear where
  in_features : Nat
  out_features : Nat
  weight : List (List Int)
  bias : List Int
deriving DecidableEq, Repr

/-- Apply a linear layer to a single input vector: one output entry per
weight row, plus the bias. -/
def Linear.forward1 (l : Linear) (x : List Int) : List Int :=
  List.zipWith (fun row b => dot row x + b) l.weight l.bias

/-- Apply a linear layer to every row of a batch. -/
def Linear.forward (l : Linear) (b : Batch) : Batch :=
  ⟨b.rows.map l.forward1⟩

/-- Modelled from the spec: the notebook's two small modules are
"linear/identity modules" (`zsl.models.LinearSemanticUnit`,
`zsl.models.Identity`); the code of `zsl.models` is not in the visible
sources. `identity dim` is `zsl.models.Identity(dim)`, which returns its
input unchanged; `linear l` is a learned linear map such as
`zsl.models.LinearSemanticUnit(in_features, out_features)`. -/
inductive Module where
  | identity (dim : Nat)
  | linear (l : Linear)
deriving DecidableEq, Repr

/-- Forward pass of a module. -/
def Module.forward : Module → Batch → Batch
  | .identity _, b => b
  | .linear l, b => l.forward b

/-- Modelled from the spec: `zsl.models.ZeroShot` (not in the visible
sources) wraps a visual module and a semantic unit and performs "a learned
semantic-embedding alignment" into a common embedding space: the semantic
branch is passed through the semantic unit and then through an alignment
projection into the visual embedding dimension. The notebook records both
returned embeddings with final dimension 2048 (cells 12 and 14) even
though the semantic unit alone outputs 1024 features (cell 11). -/
structure ZeroShot where
  visual_fe : Module
  semantic_unit : Module
  align : Linear
deriving DecidableEq, Repr

/-- Forward pass of the ZeroShot comparison model: the pair
(image embedding, semantic embedding). -/
def ZeroShot.forward (m : ZeroShot) (features semantics : Batch) :
    Batch × Batch :=
  (m.visual_fe.forward features,
   m.align.forward (m.semantic_unit.forward semantics))

/-! ## The AwA dataset -/

/-- An AwA class together with its seen/unseen status under the standard
AwA2 split. -/
structure ClassInfo where
  id : Nat
  unseen : Bool
deriving DecidableEq, Repr

/-- Modelled from the spec: the class-selection behaviour of
`zsl.data.AwAFeaturesDataset` (not in the visible sources). The glossary
defines ZSL as "classifying examples from classes unseen during training";
accordingly `load_only_unseen=True` keeps only the unseen classes,
`load_unseen=False` drops the unseen classes, and `load_unseen=True`
without `load_only_unseen` keeps every class. -/
def datasetClasses (all : List ClassInfo)
    (load_unseen load_only_unseen : Bool) : List ClassInfo :=
  if load_only_unseen then all.filter (fun c => c.unseen)
  else if load_unseen then all
  else all.filter (fun c => !c.unseen)

/-- The classes of `train_ds`, constructed in the notebook with
`load_unseen=False` (and `load_only_unseen` left at its default `False`). -/
def trainClasses (all : List ClassInfo) : List ClassInfo :=
  datasetClasses all false false

/-- The classes of `valid_ds`, constructed in the notebook with
`load_unseen=True, load_only_unseen=True`. -/
def validClasses (all : List ClassInfo) : List ClassInfo :=
  datasetClasses all true true

/-- One sample of the AwA features dataset: a feature vector, an integer
class label, and a semantic attribute vector. -/
structure AwAItem where
  features : List Int
  target : Nat
  semantic : List Int
deriving DecidableEq, Repr

/-- Modelled from the spec: `zsl.data.AwAFeaturesDataset` (not in the
visible sources) as a container of samples; the spec states that "the only
data entities are tensors produced by an external dataset object (feature
vector, integer label, semantic attribute vector)". -/
structure AwAFeaturesDataset where
  items : List AwAItem
deriving DecidableEq, Repr

/-- Modelled from the spec: indexing the dataset (`ds[i]`, cell 7 of the
notebook unpacks it as `features, target, semantic = ds[0]`) yields the
triple (feature vector, integer label, semantic attribute vector). -/
def AwAFeaturesDataset.getItem (ds : AwAFeaturesDataset) (i : Nat) :
    Option (List Int × Nat × List Int) :=
  (ds.items.get? i).map fun it => (it.features, it.target, it.semantic)

/-! ## Model parameters and the optimizer -/

/-- A model parameter as seen by the optimizer: only its
`requires_grad` flag matters to the notebook's filter. -/
structure Param where
  id : Nat
  requires_grad : Bool
deriving DecidableEq, Repr

/-- Cell 15 of the notebook:
`parameters = [p for p in zs_model.parameters() if p.requires_grad]`. -/
def selectParameters (ps : List Param) : List Param :=
  ps.filter (fun p => p.requires_grad)

/-- Cell 15: `torch.optim.AdamW(parameters, 1e-4, weight_decay=9e-5)`
receives the filtered list as its single parameter group. -/
def adamWParamGroups (ps : List Param) : List (List Param) :=
  [selectParameters ps]

/-! ## The notebook script

The executable cells of `examples/awa.ipynb` are transcribed, in order,
as a list of steps. Atomic steps name the external calls the notebook
performs; the only compound step the language offers besides atoms is a
`for`-range loop and a `try/except` block, so that "the script contains
no exception handler" and "the script is a single linear pipeline ending
in one epoch loop" are genuine checks on the transcript.
-/

/-- The atomic statements of the notebook, in the notebook's vocabulary. -/
inductive Atom where
  /-- Cell 6: `ds = zsl.data.AwAFeaturesDataset(..., features_type=fe)`. -/
  | constructBaseDataset
  /-- Cell 7: `features, target, semantic = ds[0]` plus prints. -/
  | sampleItem
  /-- Cell 8: `train_ds = zsl.data.AwAFeaturesDataset(..., load_unseen=False)`. -/
  | constructTrainDataset
  /-- Cell 8: `valid_ds = zsl.data.AwAFeaturesDataset(..., load_unseen=True, load_only_unseen=True)`. -/
  | constructValidDataset
  /-- Cell 8: `train_dl = DataLoader(train_ds, shuffle=True, batch_size=64, ...)`. -/
  | constructTrainLoader
  /-- Cell 8: `valid_dl = DataLoader(valid_ds, batch_size=32, ...)`. -/
  | constructValidLoader
  /-- Cell 10: `semantic_unit = zsl.models.LinearSemanticUnit(in_features=len(train_ds.attrs), out_features=1024)`. -/
  | buildSemanticUnit
  /-- Cell 10: `visual_fe = zsl.models.Identity(features.size(0))`. -/
  | buildVisualIdentity
  /-- Cell 11: demonstration forward passes through the two modules. -/
  | demoModuleForward
  /-- Cell 12: `zs_model = zsl.models.ZeroShot(visual_fe, semantic_unit)`. -/
  | buildZeroShot
  /-- Cell 12: demonstration forward pass through `zs_model` on one sample. -/
  | demoZeroShotForward
  /-- Cell 13: `zs_model.to(device)`. -/
  | modelToDevice
  /-- Cell 14: demonstration forward pass on one training batch. -/
  | demoBatchForward
  /-- Cell 15: filter parameters and build the `AdamW` optimizer. -/
  | buildOptimizer
  /-- Cell 16: `semantic_repr = torch.FloatTensor(valid_ds.attr_matrix)`. -/
  | buildSemanticRepr
  /-- Loop body, cell 16: `zsl.engine.train_epoch(model=..., epoch=epoch, ...)`. -/
  | trainEpochCall
  /-- Loop body, cell 16: `zsl.engine.evaluate(model=..., class_representations=semantic_repr, ...)`. -/
  | evaluateCall
deriving DecidableEq, Repr

/-- A script step: an atomic statement, a `for _ in range(n)` loop, or a
`try/except` block (available in the language, never used by the script). -/
inductive Step where
  | atom (a : Atom)
  | forRange (n : Nat) (body : List Step)
  | tryExcept (body handler : List Step)

mutual

/-- Whether a step contains a `try/except` handler anywhere inside. -/
def Step.hasHandler : Step → Bool
  | .atom _ => false
  | .forRange _ body => stepsHaveHandler body
  | .tryExcept _ _ => true

/-- Whether any step of a list contains a `try/except` handler. -/
def stepsHaveHandler : List Step → Bool
  | [] => false
  | s :: rest => s.hasHandler || stepsHaveHandler rest

end

/-- Whether a step is atomic (no control flow). -/
def Step.isAtom : Step → Bool
  | .atom _ => true
  | _ => false

mutual

/-- The atoms a step executes, in execution order (loops unrolled;
a `try/except` contributes its body's atoms). -/
def Step.atomsOf : Step → List Atom
  | .atom a => [a]
  | .forRange n body => iterAtoms n body
  | .tryExcept body _ => stepsAtomsOf body

/-- The atoms a list of steps executes, in order. -/
def stepsAtomsOf : List Step → List Atom
  | [] => []
  | s :: rest => s.atomsOf ++ stepsAtomsOf rest

/-- The atoms `n` iterations of a loop body execute. -/
def iterAtoms : Nat → List Step → List Atom
  | 0, _ => []
  | n + 1, body => stepsAtomsOf body ++ iterAtoms n body

end

mutual

/-- Run one step against an oracle `exec` giving each external call's
outcome; a raised error aborts a `forRange`, while a `tryExcept` recovers
by running its handler. -/
def Step.run {E : Type} (exec : Atom → Except E Unit) : Step → Except E Unit
  | .atom a => exec a
  | .forRange n body => runIter exec n body
  | .tryExcept body handler =>
    match runSteps exec body with
    | .error _ => runSteps exec handler
    | .ok _ => .ok ()

/-- Run a list of steps in order, stopping at the first error. -/
def runSteps {E : Type} (exec : Atom → Except E Unit) :
    List Step → Except E Unit
  | [] => .ok ()
  | s :: rest =>
    match s.run exec with
    | .error e => .error e
    | .ok _ => runSteps exec rest

/-- Run `n` iterations of a loop body, stopping at the first error. -/
def runIter {E : Type} (exec : Atom → Except E Unit) :
    Nat → List Step → Except E Unit
  | 0, _ => .ok ()
  | n + 1, body =>
    match runSteps exec body with
    | .error e => .error e
    | .ok _ => runIter exec n body

end

/-- Run a flat sequence of atomic calls, stopping at the first error. -/
def runAtoms {E : Type} (exec : Atom → Except E Unit) :
    List Atom → Except E Unit
  | [] => .ok ()
  | a :: rest =>
    match exec a with
    | .error e => .error e
    | .ok _ => runAtoms exec rest

/-- Cell 16: `EPOCHS = 8`. -/
def EPOCHS : Nat := 8

/-- The epoch-loop body of cell 16: `train_epoch(...)` then `evaluate(...)`. -/
def epochLoopBody : List Step :=
  [.atom .trainEpochCall, .atom .evaluateCall]

/-- The notebook script, cell by cell, in order. -/
def awaScript : List Step :=
  [.atom .constructBaseDataset,
   .atom .sampleItem,
   .atom .constructTrainDataset,
   .atom .constructValidDataset,
   .atom .constructTrainLoader,
   .atom .constructValidLoader,
   .atom .buildSemanticUnit,
   .atom .buildVisualIdentity,
   .atom .demoModuleForward,
   .atom .buildZeroShot,
   .atom .demoZeroShotForward,
   .atom .modelToDevice,
   .atom .demoBatchForward,
   .atom .buildOptimizer,
   .atom .buildSemanticRepr,
   .forRange EPOCHS epochLoopBody]

/-! ## The epoch loop as a stateful trace

Cell 16 binds `semantic_repr` once before the loop and then runs
`for epoch in range(EPOCHS)` whose body calls `train_epoch` (receiving
the loop variable `epoch` and `print_freq=300`) and then `evaluate`
(receiving `class_representations=semantic_repr`). We interpret the loop
over a state holding the current value of the `semantic_repr` variable,
recording every engine call together with the arguments it receives; the
command language contains an assignment to `semantic_repr` so that "it is
never reassigned inside the loop" is a genuine check on the body.
-/

/-- The value of the `semantic_repr` variable: the class-attribute matrix
`torch.FloatTensor(valid_ds.attr_matrix)`. -/
abbrev SemMatrix : Type := List (List Int)

/-- An external engine call, with the arguments the loop hands it. -/
inductive EngineCall where
  /-- The call `zsl.engine.train_epoch(..., epoch=epoch, print_freq=300, ...)`. -/
  | trainEpoch (epoch : Nat) (printFreq : Nat)
  /-- The call `zsl.engine.evaluate(..., class_representations=semantic_repr, ...)`. -/
  | evaluate (classRepresentations : SemMatrix)
deriving DecidableEq, Repr

/-- A statement of the epoch-loop body. -/
inductive LoopCmd where
  /-- An assignment `semantic_repr = m` (never present in the body). -/
  | assignSemanticRepr (m : SemMatrix)
  /-- The `train_epoch` call. -/
  | train
  /-- The `evaluate` call. -/
  | eval
deriving DecidableEq, Repr

/-- Run one loop-body statement at epoch `e` with `semantic_repr = r`:
the new value of `semantic_repr` and the engine calls issued. -/
def LoopCmd.run (c : LoopCmd) (e : Nat) (r : SemMatrix) :
    SemMatrix × List EngineCall :=
  match c with
  | .assignSemanticRepr m => (m, [])
  | .train => (r, [.trainEpoch e 300])
  | .eval => (r, [.evaluate r])

/-- Run a loop body at epoch `e`, threading `semantic_repr`. -/
def runBody : List LoopCmd → Nat → SemMatrix → SemMatrix × List EngineCall
  | [], _, r => (r, [])
  | c :: rest, e, r =>
    let (r1, cs) := c.run e r
    let (r2, cs2) := runBody rest e r1
    (r2, cs ++ cs2)

/-- Run `n` remaining iterations starting at epoch `e`. -/
def runLoopFrom (body : List LoopCmd) :
    Nat → Nat → SemMatrix → SemMatrix × List EngineCall
  | 0, _, r => (r, [])
  | n + 1, e, r =>
    let (r1, cs) := runBody body e r
    let (r2, cs2) := runLoopFrom body n (e + 1) r1
    (r2, cs ++ cs2)

/-- The body of the notebook's epoch loop (cell 16): `train_epoch` then
`evaluate`, nothing else. -/
def notebookLoopBody : List LoopCmd := [.train, .eval]

/-- The trace of engine calls of `for epoch in range(epochs)` with the
notebook's body, starting from `semantic_repr = r`. -/
def epochLoopTrace (epochs : Nat) (r : SemMatrix) : List EngineCall :=
  (runLoopFrom notebookLoopBody epochs 0 r).2

/-- Whether an engine call is an `evaluate` whose
`class_representations` argument is `r`. -/
def EngineCall.evalArgIs (c : EngineCall) (r : SemMatrix) : Bool :=
  match c with
  | .evaluate m => m == r
  | .trainEpoch _ _ => true

/-! ## Helper lemmas -/

/-- Running a concatenation of atomic calls runs the first part and, if it
succeeded, the second. -/
theorem runAtoms_append {E : Type} (exec : Atom → Except E Unit)
    (xs ys : List Atom) :
    runAtoms exec (xs ++ ys) =
      match runAtoms exec xs with
      | .error e => .error e
      | .ok _ => runAtoms exec ys := by
  induction xs with
  | nil => rfl
  | cons a rest ih =>
    simp only [List.cons_append, runAtoms]
    cases exec a with
    | error e => rfl
    | ok u => exact ih

mutual

/-- A handler-free step behaves exactly as the straight-line sequence of
its atomic calls. -/
theorem Step.run_eq_runAtoms {E : Type} (exec : Atom → Except E Unit) :
    (s : Step) → s.hasHandler = false →
      s.run exec = runAtoms exec s.atomsOf
  | .atom a, _ => by
    simp only [Step.run, Step.atomsOf, runAtoms]
    cases exec a with
    | error e => rfl
    | ok u => rfl
  | .forRange n body, h => by
    have hb : stepsHaveHandler body = false := by
      simpa [Step.hasHandler] using h
    simpa [Step.run, Step.atomsOf] using runIter_eq_runAtoms exec n body hb
  | .tryExcept body handler, h => by
    simp [Step.hasHandler] at h

/-- A handler-free step list behaves exactly as the straight-line sequence
of its atomic calls. -/
theorem runSteps_eq_runAtoms {E : Type} (exec : Atom → Except E Unit) :
    (l : List Step) → stepsHaveHandler l = false →
      runSteps exec l = runAtoms exec (stepsAtomsOf l)
  | [], _ => by simp [runSteps, stepsAtomsOf, runAtoms]
  | s :: rest, h => by
    have h1 : s.hasHandler = false ∧ stepsHaveHandler rest = false := by
      simpa [stepsHaveHandler, Bool.or_eq_false_iff] using h
    simp only [runSteps, stepsAtomsOf,
      Step.run_eq_runAtoms exec s h1.1, runAtoms_append]
    cases runAtoms exec s.atomsOf with
    | error e => rfl
    | ok u => exact runSteps_eq_runAtoms exec rest h1.2

/-- Handler-free loop iterations behave exactly as the straight-line
sequence of their atomic calls. -/
theorem runIter_eq_runAtoms {E : Type} (exec : Atom → Except E Unit) :
    (n : Nat) → (body : List Step) → stepsHaveHandler body = false →
      runIter exec n body = runAtoms exec (iterAtoms n body)
  | 0, _, _ => by simp [runIter, iterAtoms, runAtoms]
  | n + 1, body, h => by
    simp only [runIter, iterAtoms,
      runSteps_eq_runAtoms exec body h, runAtoms_append]
    cases runAtoms exec (stepsAtomsOf body) with
    | error e => rfl
    | ok u => exact runIter_eq_runAtoms exec n body h

end

/-- A straight-line sequence whose prefix succeeds propagates the first
error unchanged. -/
theorem runAtoms_first_error {E : Type} (exec : Atom → Except E Unit)
    (e : E) : (l1 : List Atom) → (a : Atom) → (l2 : List Atom) →
    (∀ b ∈ l1, exec b = .ok ()) → exec a = .error e →
    runAtoms exec (l1 ++ a :: l2) = .error e
  | [], a, l2, _, ha => by simp [runAtoms, ha]
  | b :: rest, a, l2, hpre, ha => by
    have hb : exec b = .ok () := hpre b (List.mem_cons_self b rest)
    simp only [List.cons_append, runAtoms, hb]
    exact runAtoms_first_error exec e rest a l2
      (fun c hc => hpre c (List.mem_cons_of_mem b hc)) ha

/-- The notebook's epoch loop threads `semantic_repr` unchanged and every
`evaluate` call it emits receives that unchanged value. -/
theorem runLoopFrom_notebook_invariant (r : SemMatrix) :
    (n e : Nat) →
      (runLoopFrom notebookLoopBody n e r).1 = r ∧
      ((runLoopFrom notebookLoopBody n e r).2).all
        (fun c => c.evalArgIs r) = true
  | 0, _ => by simp [runLoopFrom]
  | n + 1, e => by
    have ih := runLoopFrom_notebook_invariant r n (e + 1)
    simp only [notebookLoopBody] at ih ⊢
    rcases hrec : runLoopFrom [LoopCmd.train, LoopCmd.eval] n (e + 1) r
      with ⟨r2, cs2⟩
    rw [hrec] at ih
    simp only [runLoopFrom, runBody, LoopCmd.run, hrec]
    refine ⟨ih.1, ?_⟩
    have ih2 : (cs2.all fun c => c.evalArgIs r) = true := ih.2
    simp only [List.nil_append, List.append_nil, List.all_append,
      List.all_cons, List.all_nil, EngineCall.evalArgIs,
      Bool.and_true, Bool.true_and]
    simp only [List.all_eq_true, EngineCall.evalArgIs] at ih2
    simpa using ih2

/-- Whether a loop-body statement assigns to `semantic_repr`. -/
def LoopCmd.isAssign : LoopCmd → Bool
  | .assignSemanticRepr _ => true
  | .train => false
  | .eval => false

/-- The flat sequence of atomic calls the notebook script executes, with
the epoch loop unrolled (`EPOCHS = 8` iterations of `train_epoch` then
`evaluate`). -/
def awaAtoms : List Atom :=
  [.constructBaseDataset, .sampleItem,
   .constructTrainDataset, .constructValidDataset,
   .constructTrainLoader, .constructValidLoader,
   .buildSemanticUnit, .buildVisualIdentity, .demoModuleForward,
   .buildZeroShot, .demoZeroShotForward, .modelToDevice,
   .demoBatchForward, .buildOptimizer, .buildSemanticRepr,
   .trainEpochCall, .evaluateCall, .trainEpochCall, .evaluateCall,
   .trainEpochCall, .evaluateCall, .trainEpochCall, .evaluateCall,
   .trainEpochCall, .evaluateCall, .trainEpochCall, .evaluateCall,
   .trainEpochCall, .evaluateCall, .trainEpochCall, .evaluateCall]

/-- The atoms of the transcribed script are exactly `awaAtoms`. -/
theorem stepsAtomsOf_awaScript : stepsAtomsOf awaScript = awaAtoms := by
  simp [awaScript, epochLoopBody, EPOCHS, awaAtoms,
    stepsAtomsOf, Step.atomsOf, iterAtoms]

/-- The transcribed script contains no `try/except` handler. -/
theorem awaScript_handler_free : stepsHaveHandler awaScript = false := by
  simp [awaScript, epochLoopBody, EPOCHS,
    stepsHaveHandler, Step.hasHandler]

/-! ## Claims -/

/-- Claim C1: the script's visible logic is a linear pipeline executed in
this order — construct the AwA feature datasets and their data loaders,
build the linear semantic unit and the identity visual module, wrap both
in a ZeroShot comparison model, and then run an epoch loop whose every
iteration calls `train_epoch` followed by `evaluate`; every step before
the loop is atomic (no other control flow). -/
theorem C1_linear_pipeline :
    awaScript =
      [Step.atom .constructBaseDataset,
       Step.atom .sampleItem,
       Step.atom .constructTrainDataset,
       Step.atom .constructValidDataset,
       Step.atom .constructTrainLoader,
       Step.atom .constructValidLoader,
       Step.atom .buildSemanticUnit,
       Step.atom .buildVisualIdentity,
       Step.atom .demoModuleForward,
       Step.atom .buildZeroShot,
       Step.atom .demoZeroShotForward,
       Step.atom .modelToDevice,
       Step.atom .demoBatchForward,
       Step.atom .buildOptimizer,
       Step.atom .buildSemanticRepr] ++
      [Step.forRange EPOCHS
        [Step.atom .trainEpochCall, Step.atom .evaluateCall]] ∧
    (awaScript.dropLast).all Step.isAtom = true := by
  exact ⟨rfl, rfl⟩

/-- Claim C5: the visual feature-extractor module is the identity map: the
image embedding returned by the ZeroShot model (whose visual module is
`Identity`, as in the notebook's `zs_model`) equals the input feature
batch unchanged. -/
theorem C5_visual_identity (d : Nat) (su : Module) (al : Linear)
    (features semantics : Batch) :
    (ZeroShot.forward ⟨.identity d, su, al⟩ features semantics).1 =
      features := rfl

/-- Claim C7: with `EPOCHS = 8` the loop performs exactly 8 iterations,
passing epochs 0 through 7 to `train_epoch`, and within every iteration
`train_epoch` is called before `evaluate`. -/
theorem C7_epoch_loop_trace :
    EPOCHS = 8 ∧
    ∀ r : SemMatrix,
      epochLoopTrace EPOCHS r =
        [.trainEpoch 0 300, .evaluate r,
         .trainEpoch 1 300, .evaluate r,
         .trainEpoch 2 300, .evaluate r,
         .trainEpoch 3 300, .evaluate r,
         .trainEpoch 4 300, .evaluate r,
         .trainEpoch 5 300, .evaluate r,
         .trainEpoch 6 300, .evaluate r,
         .trainEpoch 7 300, .evaluate r] := by
  refine ⟨rfl, fun r => ?_⟩
  simp [epochLoopTrace, runLoopFrom, runBody, LoopCmd.run, notebookLoopBody,
    EPOCHS]

/-- Claim C8: every parameter handed to the AdamW optimizer satisfies
`requires_grad = true`; the list is filtered before constructing the
optimizer, so no parameter with `requires_grad = false` appears in any
optimizer parameter group. -/
theorem C8_optimizer_params_require_grad (ps : List Param) :
    (adamWParamGroups ps).all
      (fun g => g.all (fun p => p.requires_grad)) = true := by
  simp only [adamWParamGroups, selectParameters, List.all_cons,
    List.all_nil, Bool.and_true]
  induction ps with
  | nil => rfl
  | cons p rest ih =>
    by_cases h : p.requires_grad = true
    · simp [List.filter, h, ih]
    · simp [List.filter, Bool.eq_false_iff.mpr h, ih]

/-- Claim C2: the class sets used for training and for validation are
disjoint — `train_ds` is built with `load_unseen=False`, so it contains no
unseen classes, while `valid_ds` is built with `load_only_unseen=True`, so
it contains only unseen classes; no class of the training dataset appears
in the validation dataset. -/
theorem C2_train_valid_classes_disjoint (all : List ClassInfo)
    (c : ClassInfo) (h : c ∈ trainClasses all) : c ∉ validClasses all := by
  have ht : trainClasses all = all.filter (fun c => !c.unseen) := rfl
  have hv : validClasses all = all.filter (fun c => c.unseen) := rfl
  rw [ht] at h
  rw [hv]
  rcases List.mem_filter.mp h with ⟨-, hns⟩
  intro hmem
  rcases List.mem_filter.mp hmem with ⟨-, hs⟩
  simp [hs] at hns

/-- A two-class split (one seen, one unseen) for concrete evaluation. -/
def demoSplit : List ClassInfo := [⟨0, false⟩, ⟨1, true⟩]

/-- Witness for C2: the seen class 0 is in the training classes and, by
the claim's theorem, not among the validation classes. -/
theorem C2_witness :
    ClassInfo.mk 0 false ∈ trainClasses demoSplit ∧
    ClassInfo.mk 0 false ∉ validClasses demoSplit :=
  ⟨by decide, C2_train_valid_classes_disjoint demoSplit ⟨0, false⟩
    (by decide)⟩

/-- Claim C3: the ZeroShot model aligns the two modalities in a common
embedding space — with the identity visual module (the notebook's
`zs_model` configuration) and an alignment projection whose output
dimension matches the visual feature dimension, the image embedding and
the semantic embedding returned for any input pair have the same final
dimension, even though the semantic unit itself may have a different
output dimension. -/
theorem C3_common_embedding_dim (d : Nat) (su al : Linear)
    (features semantics : Batch)
    (hw : al.weight.length = al.out_features)
    (hb : al.bias.length = al.out_features)
    (hf : features.width = some al.out_features)
    (hs : semantics.rows ≠ []) :
    (ZeroShot.forward ⟨.identity d, .linear su, al⟩
        features semantics).1.width =
      (ZeroShot.forward ⟨.identity d, .linear su, al⟩
        features semantics).2.width := by
  rcases semantics with ⟨rows⟩
  cases rows with
  | nil => exact absurd rfl hs
  | cons x xs =>
    simp only [ZeroShot.forward, Module.forward, Linear.forward,
      Batch.width] at hf ⊢
    simp only [List.map_cons, List.head?_cons, Option.map_some]
    rw [hf]
    simp [Linear.forward1, List.length_zipWith, hw, hb]

/-- A 2-in/2-out semantic unit for concrete evaluation. -/
def demoSemanticUnit : Linear := ⟨2, 2, [[1, 0], [0, 1]], [0, 0]⟩

/-- A 2-in/2-out alignment projection for concrete evaluation. -/
def demoAlign : Linear := ⟨2, 2, [[1, 2], [3, 4]], [0, 1]⟩

/-- A one-row feature batch of width 2 for concrete evaluation. -/
def demoFeatures : Batch := ⟨[[5, 6]]⟩

/-- A one-row semantic batch of width 2 for concrete evaluation. -/
def demoSemantics : Batch := ⟨[[7, 8]]⟩

/-- Witness for C3: a concrete ZeroShot model on concrete batches returns
embeddings of equal final dimension. -/
theorem C3_witness :
    (ZeroShot.forward ⟨.identity 2, .linear demoSemanticUnit, demoAlign⟩
        demoFeatures demoSemantics).1.width =
      (ZeroShot.forward ⟨.identity 2, .linear demoSemanticUnit, demoAlign⟩
        demoFeatures demoSemantics).2.width :=
  C3_common_embedding_dim 2 demoSemanticUnit demoAlign
    demoFeatures demoSemantics rfl rfl rfl (by decide)

/-- Claim C4: indexing the dataset returns exactly a triple
(feature vector, integer label, semantic attribute vector), in that
order. -/
theorem C4_getitem_triple (ds : AwAFeaturesDataset) (i : Nat)
    (h : i < ds.items.length) :
    ds.getItem i =
      some ((ds.items.get ⟨i, h⟩).features,
            (ds.items.get ⟨i, h⟩).target,
            (ds.items.get ⟨i, h⟩).semantic) := by
  unfold AwAFeaturesDataset.getItem
  rw [List.get?_eq_get h]
  rfl

/-- A one-sample dataset for concrete evaluation. -/
def demoAwA : AwAFeaturesDataset := ⟨[⟨[1, 2], 0, [3]⟩]⟩

/-- Witness for C4: indexing the concrete dataset at 0 yields its triple. -/
theorem C4_witness : demoAwA.getItem 0 = some ([1, 2], 0, [3]) :=
  C4_getitem_triple demoAwA 0 (by decide)

/-- Claim C6: the script installs no exception handler anywhere, and any
error raised by an external call — after the calls before it succeeded —
propagates unchanged out of the whole script, with no recovery logic. -/
theorem C6_no_handler_errors_propagate :
    stepsHaveHandler awaScript = false ∧
    ∀ (E : Type) (exec : Atom → Except E Unit) (e : E)
      (l1 : List Atom) (a : Atom) (l2 : List Atom),
      stepsAtomsOf awaScript = l1 ++ a :: l2 →
      (∀ b ∈ l1, exec b = .ok ()) →
      exec a = .error e →
      runSteps exec awaScript = .error e := by
  refine ⟨awaScript_handler_free, ?_⟩
  intro E exec e l1 a l2 hsplit hpre ha
  rw [runSteps_eq_runAtoms exec awaScript awaScript_handler_free, hsplit]
  exact runAtoms_first_error exec e l1 a l2 hpre ha

/-- An oracle under which only the optimizer construction fails. -/
def demoExec : Atom → Except Nat Unit := fun a =>
  match a with
  | .buildOptimizer => .error 7
  | _ => .ok ()

/-- The calls the script performs before the optimizer construction. -/
def demoPrefix : List Atom :=
  [.constructBaseDataset, .sampleItem,
   .constructTrainDataset, .constructValidDataset,
   .constructTrainLoader, .constructValidLoader,
   .buildSemanticUnit, .buildVisualIdentity, .demoModuleForward,
   .buildZeroShot, .demoZeroShotForward, .modelToDevice,
   .demoBatchForward]

/-- The calls the script would perform after the optimizer construction. -/
def demoSuffix : List Atom :=
  [.buildSemanticRepr,
   .trainEpochCall, .evaluateCall, .trainEpochCall, .evaluateCall,
   .trainEpochCall, .evaluateCall, .trainEpochCall, .evaluateCall,
   .trainEpochCall, .evaluateCall, .trainEpochCall, .evaluateCall,
   .trainEpochCall, .evaluateCall, .trainEpochCall, .evaluateCall]

/-- Witness for C6: when the optimizer construction raises error 7 the
whole script ends with error 7. -/
theorem C6_witness : runSteps demoExec awaScript = .error 7 :=
  C6_no_handler_errors_propagate.2 Nat demoExec 7
    demoPrefix .buildOptimizer demoSuffix
    (by rw [stepsAtomsOf_awaScript]; rfl)
    (by intro b hb; fin_cases hb <;> rfl) rfl

/-- Claim C9: `semantic_repr` is built exactly once, before the epoch
loop; the loop body contains no assignment to it; and every `evaluate`
call of every epoch receives that identical `class_representations`
value. -/
theorem C9_semantic_repr_constant :
    (stepsAtomsOf awaScript).count Atom.buildSemanticRepr = 1 ∧
    (stepsAtomsOf awaScript).indexOf Atom.buildSemanticRepr <
      (stepsAtomsOf awaScript).indexOf Atom.trainEpochCall ∧
    notebookLoopBody.all (fun c => !c.isAssign) = true ∧
    ∀ (epochs : Nat) (r : SemMatrix),
      ((epochLoopTrace epochs r).all fun c => c.evalArgIs r) = true := by
  refine ⟨?_, ?_, rfl, ?_⟩
  · rw [stepsAtomsOf_awaScript]; decide
  · rw [stepsAtomsOf_awaScript]; decide
  · intro epochs r
    exact (runLoopFrom_notebook_invariant r epochs 0).2

end ZslPytorch
